import Mathlib

/-!
Shallow embedding of the Authorization & Token Lifecycle Manager of
`src/auth.ts` (mcp-fitbit).

Modelling conventions:
- Timestamps are `Nat` milliseconds-since-epoch.  In the source,
  `expires_at` is an ISO date string parsed with `new Date(...)` and the
  comparison `new Date(tokenData.expires_at) < new Date()` coerces both
  dates to their millisecond values under strict `<`; the model carries the
  parsed instant directly as `Option Nat` (absent field = `none`).
- JavaScript truthiness on strings: `!accessToken` is true exactly when the
  value is `null` or the empty string, so the cached access token is an
  `Option String` and the guard also tests for the empty string.
- Network and database effects are environment parameters: the outcome of a
  refresh / code-exchange call and whether a `saveTokenToDB` query succeeds
  are inputs, and each modelled operation reports counts of the refresh
  requests it issued and the save queries it attempted, the resulting
  in-memory cache, the resulting store row, and whether an exception
  escaped to the caller.
-/

/-- `FitbitTokenData` (auth.ts lines 16-24).  `expires_at` is optional in the
source (`expires_at?: string`); here it is the parsed absolute instant. -/
structure FitbitTokenData where
  access_token : String
  refresh_token : String
  expires_in : Nat
  expires_at : Option Nat
  scope : String
  token_type : String
  user_id : String
deriving DecidableEq

/-- Result of a provider token-endpoint call (refresh or code exchange):
either a fresh token payload or a rejection/transport failure (a thrown
error in the source). -/
inductive OAuthCallResult where
  | success : FitbitTokenData → OAuthCallResult
  | failure : OAuthCallResult
deriving DecidableEq

/-- The module-level in-memory cache (auth.ts lines 83-84):
`let accessToken: string | null` and `let tokenData: FitbitTokenData | null`. -/
structure AuthCache where
  accessToken : Option String
  tokenData : Option FitbitTokenData
deriving DecidableEq

/-- Minimal JSON universe for the `token_data` JSONB column: what
`JSON.stringify` produces for a `FitbitTokenData` value and what the pg
driver hands back after parsing the column. -/
inductive Json where
  | str : String → Json
  | num : Nat → Json
  | obj : List (String × Json) → Json

/-- First-match lookup of a key in a JSON object field list. -/
def jsonLookup (fields : List (String × Json)) (k : String) : Option Json :=
  match fields with
  | [] => none
  | (k2, v) :: rest => if k2 = k then some v else jsonLookup rest k

/-- `JSON.stringify(tokenData)` (auth.ts line 135): serializes every present
field; an `undefined` `expires_at` is omitted from the JSON object. -/
def encodeTokenData (td : FitbitTokenData) : Json :=
  Json.obj
    ([( "access_token", Json.str td.access_token),
      ( "refresh_token", Json.str td.refresh_token),
      ( "expires_in", Json.num td.expires_in)]
     ++ (match td.expires_at with
         | some e => [( "expires_at", Json.num e)]
         | none => [])
     ++ [( "scope", Json.str td.scope),
         ( "token_type", Json.str td.token_type),
         ( "user_id", Json.str td.user_id)])

/-- Decoding of the stored `token_data` column back into `FitbitTokenData`
(auth.ts lines 157-162: the pg driver parses the JSONB column; a string
value goes through `JSON.parse`).  A shape that does not decode is a
decoding failure. -/
def decodeTokenData (j : Json) : Option FitbitTokenData :=
  match j with
  | Json.obj fs =>
    match jsonLookup fs ( "access_token" ), jsonLookup fs ( "refresh_token" ),
          jsonLookup fs ( "expires_in" ), jsonLookup fs ( "scope" ),
          jsonLookup fs ( "token_type" ), jsonLookup fs ( "user_id" ) with
    | some (Json.str a), some (Json.str r), some (Json.num ei),
      some (Json.str sc), some (Json.str tt), some (Json.str uid) =>
        match jsonLookup fs ( "expires_at" ) with
        | some (Json.num e) => some ⟨a, r, ei, some e, sc, tt, uid⟩
        | none => some ⟨a, r, ei, none, sc, tt, uid⟩
        | some _ => none
    | _, _, _, _, _, _ => none
  | _ => none

/-- The single-row `fitbit_token` table (auth.ts lines 101-108): at most one
row, keyed by the constant id 1; `row` is the `token_data` column. -/
structure Store where
  row : Option Json

/-- `saveTokenToDB` success path (auth.ts lines 125-141): a transactional
upsert on id 1 that overwrites the single row with the serialized token.
The result does not depend on the previous row. -/
def saveTokenToDB (td : FitbitTokenData) : Store :=
  { row := some (encodeTokenData td) }

/-- Outcome of the `SELECT token_data FROM fitbit_token WHERE id = 1` query
(auth.ts line 149): either a row list or a query error (thrown by the
driver). -/
inductive DBOutcome where
  | ok : List Json → DBOutcome
  | queryError : DBOutcome

/-- `loadTokenFromDB` (auth.ts lines 147-170): zero rows yields null; a row
is decoded; any thrown error (query failure or `JSON.parse` failure) is
caught and yields null. -/
def loadTokenFromDB (res : DBOutcome) : Option FitbitTokenData :=
  match res with
  | DBOutcome.queryError => none
  | DBOutcome.ok [] => none
  | DBOutcome.ok (r :: _) =>
    match decodeTokenData r with
    | some td => some td
    | none => none

/-- Running the select query against the modelled store state. -/
def queryStore (store : Store) : DBOutcome :=
  match store.row with
  | some j => DBOutcome.ok [j]
  | none => DBOutcome.ok []

/-- The guard `tokenData.expires_at && new Date(tokenData.expires_at) < new
Date()` (auth.ts line 317): true exactly when the field is present and the
stored instant is strictly before `now`. -/
def expiresAtPast (now : Nat) (td : FitbitTokenData) : Bool :=
  match td.expires_at with
  | some e => decide (e < now)
  | none => false

/-- `oauthClient.createToken(tokenData).expired()` (auth.ts line 325):
simple-oauth2 parses the stored `expires_at` and compares it against the
current time.  This guard is only evaluated under `expiresAtPast`, where the
instant is already strictly in the past, so the comparison agrees with the
outer guard on every reachable input. -/
def tokenObjExpired (now : Nat) (td : FitbitTokenData) : Bool :=
  match td.expires_at with
  | some e => decide (e < now)
  | none => false

/-- Environment of one `getAccessToken` call: the provider's answer to a
refresh request, and whether the `saveTokenToDB` upsert succeeds. -/
structure RefreshEnv where
  refresh : OAuthCallResult
  saveOk : Bool
deriving DecidableEq

/-- Observable outcome of one `getAccessToken` call: the returned value
(`none` = null), the in-memory cache and store afterwards, how many refresh
requests were issued, how many save queries were attempted, and whether an
exception escaped to the caller. -/
structure GATResult where
  ret : Option String
  cache : AuthCache
  store : Store
  refreshCalls : Nat
  saveCalls : Nat
  threw : Bool

/-- `getAccessToken` (auth.ts lines 309-344), translated clause by clause:
null cache or falsy access token returns null (lines 311-314); present and
past `expires_at` enters the refresh block (line 317); under the inner
`expired()` re-check a refresh is issued (lines 325-326); on refresh
success cache is updated, then the token is saved and returned (lines
327-333); any error thrown inside the try — a rejected refresh or a failed
save — is caught, the cache is cleared and null is returned (lines
335-340); otherwise the cached token is returned (line 343). -/
def getAccessToken (now : Nat) (env : RefreshEnv) (cache : AuthCache)
    (store : Store) : GATResult :=
  match cache.tokenData, cache.accessToken with
  | none, _ => ⟨none, cache, store, 0, 0, false⟩
  | some _, none => ⟨none, cache, store, 0, 0, false⟩
  | some td, some a =>
    if a = "" then ⟨none, cache, store, 0, 0, false⟩
    else if expiresAtPast now td then
      if tokenObjExpired now td then
        match env.refresh with
        | OAuthCallResult.success t =>
          if env.saveOk then
            ⟨some t.access_token, ⟨some t.access_token, some t⟩,
             saveTokenToDB t, 1, 1, false⟩
          else
            ⟨none, ⟨none, none⟩, store, 1, 1, false⟩
        | OAuthCallResult.failure => ⟨none, ⟨none, none⟩, store, 1, 0, false⟩
      else ⟨some a, cache, store, 0, 0, false⟩
    else ⟨some a, cache, store, 0, 0, false⟩

/-- OAuth client configuration (auth.ts lines 53-57): client id and secret
read from the environment, defaulting to the empty string when unset. -/
structure FlowConfig where
  clientId : String
  clientSecret : String
deriving DecidableEq

/-- State of the authorization flow: whether the module-level `oauthServer`
handle (auth.ts line 86) is non-null, i.e. a callback listener is active. -/
structure FlowState where
  oauthServer : Bool
deriving DecidableEq

/-- `startAuthorizationFlow` (auth.ts lines 179-302): returns the updated
flow state together with the number of listeners bound by this call.  A
non-null `oauthServer` handle makes the call a logged no-op (lines
181-184); a falsy client id or secret refuses to start (lines 186-191);
otherwise `app.listen` binds one listener and stores its handle (line
273). -/
def startAuthorizationFlow (cfg : FlowConfig) (s : FlowState) :
    FlowState × Nat :=
  if s.oauthServer then (s, 0)
  else if cfg.clientId = "" || cfg.clientSecret = "" then (s, 0)
  else ({ oauthServer := true }, 1)

/-- Environment of one callback request: the provider's answer to the code
exchange and whether the `saveTokenToDB` upsert succeeds. -/
structure ExchangeEnv where
  exchange : OAuthCallResult
  saveOk : Bool
deriving DecidableEq

/-- Observable outcome of one request to the `/callback` route: the HTTP
status sent to the browser, the in-memory cache and store afterwards, and
whether the `oauthServer` handle is still non-null. -/
structure CallbackResult where
  status : Nat
  cache : AuthCache
  store : Store
  oauthServer : Bool

/-- The `/callback` route handler (auth.ts lines 209-270).  A missing (or
empty, hence falsy) `code` query parameter sends 400, closes the listener
and nulls the handle (lines 212-223), touching neither cache nor store.
Otherwise the code is exchanged: on success the cache is updated, the token
is saved and 200 is sent (lines 230-243); a thrown exchange or save error
is caught and 500 is sent, with the cache left as already assigned (lines
244-259); the `finally` block always closes the listener (lines 260-269). -/
def callbackHandler (env : ExchangeEnv) (code : Option String)
    (cache : AuthCache) (store : Store) (server : Bool) : CallbackResult :=
  match code with
  | none => ⟨400, cache, store, false⟩
  | some c =>
    if c = "" then ⟨400, cache, store, false⟩
    else
      match env.exchange with
      | OAuthCallResult.success t =>
        if env.saveOk then
          ⟨200, ⟨some t.access_token, some t⟩, saveTokenToDB t, false⟩
        else
          ⟨500, ⟨some t.access_token, some t⟩, store, false⟩
      | OAuthCallResult.failure => ⟨500, cache, store, false⟩

/-- The synchronous prefix of one `getAccessToken` call, from entry up to
the `await accessTokenObj.refresh()` suspension point (auth.ts lines
311-326).  This prefix only reads the shared cache — the first write to
`accessToken`/`tokenData` happens after the refresh resolves (lines
327-328) — and the returned boolean says whether this call issues its own
refresh request at the suspension point. -/
def syncPrefixIssuesRefresh (now : Nat) (cache : AuthCache) : Bool :=
  match cache.tokenData, cache.accessToken with
  | some td, some a =>
    if a = "" then false
    else expiresAtPast now td && tokenObjExpired now td
  | _, _ => false

/-- Two `getAccessToken` calls interleaved on the shared module state: call
A runs its synchronous prefix and suspends at the refresh await, then call
B runs its synchronous prefix on the same still-unmodified cache and
suspends likewise.  Returns the total number of refresh requests issued by
this schedule. -/
def twoInterleavedRefreshCount (now : Nat) (cache : AuthCache) : Nat :=
  (if syncPrefixIssuesRefresh now cache then 1 else 0)
  + (if syncPrefixIssuesRefresh now cache then 1 else 0)

/-- An expired sample credential: `expires_at` is instant 50. -/
def tdStale : FitbitTokenData :=
  { access_token := "AT0", refresh_token := "RT0", expires_in := 28800,
    expires_at := some 50, scope := "activity", token_type := "Bearer",
    user_id := "U1" }

/-- The sample credential a successful refresh or exchange returns. -/
def tdNew : FitbitTokenData :=
  { access_token := "AT1", refresh_token := "RT1", expires_in := 28800,
    expires_at := some 2000, scope := "activity", token_type := "Bearer",
    user_id := "U1" }

/-- C2: `getAccessToken` returns null immediately when no credential is
cached; with a cached credential whose `expires_at` is not in the past it
returns the cached access token, issuing no refresh request and no save
query and leaving the store and cache untouched; and the expiry test is the
strict comparison `expires_at < now`: a refresh is issued exactly when the
stored instant is strictly before the current time, with no skew margin. -/
theorem getAccessToken_cached_fresh_no_refresh
    (now e : Nat) (env : RefreshEnv) (td : FitbitTokenData) (a : String)
    (store : Store) (ha : a ≠ "") (he : td.expires_at = some e) :
    getAccessToken now env ⟨none, none⟩ store
      = ⟨none, ⟨none, none⟩, store, 0, 0, false⟩ ∧
    getAccessToken now env ⟨some a, none⟩ store
      = ⟨none, ⟨some a, none⟩, store, 0, 0, false⟩ ∧
    (now ≤ e →
      getAccessToken now env ⟨some a, some td⟩ store
        = ⟨some a, ⟨some a, some td⟩, store, 0, 0, false⟩) ∧
    ((getAccessToken now env ⟨some a, some td⟩ store).refreshCalls = 1
      ↔ e < now) := by
  obtain ⟨r, sok⟩ := env
  refine ⟨rfl, rfl, ?_, ?_⟩
  · intro h
    have hnot : ¬ (e < now) := Nat.not_lt.mpr h
    simp [getAccessToken, expiresAtPast, he, ha, hnot]
  · by_cases hlt : e < now
    · cases r <;> cases sok <;>
        simp [getAccessToken, expiresAtPast, tokenObjExpired, he, ha, hlt]
    · simp [getAccessToken, expiresAtPast, tokenObjExpired, he, ha, hlt]

/-- C2 witness: a concrete fresh credential (expiry 2000, now 100) is served
from cache with no refresh. -/
theorem getAccessToken_cached_fresh_no_refresh_witness :
    getAccessToken 100 ⟨OAuthCallResult.failure, true⟩
        ⟨some ( "AT1" ), some tdNew⟩ ⟨none⟩
      = ⟨some ( "AT1" ), ⟨some ( "AT1" ), some tdNew⟩, ⟨none⟩, 0, 0, false⟩ ∧
    ¬ (getAccessToken 100 ⟨OAuthCallResult.failure, true⟩
        ⟨some ( "AT1" ), some tdNew⟩ ⟨none⟩).refreshCalls = 1 :=
  have h := getAccessToken_cached_fresh_no_refresh 100 2000
    ⟨OAuthCallResult.failure, true⟩ tdNew ( "AT1" ) ⟨none⟩ (by decide) rfl
  ⟨h.2.2.1 (by decide), fun hc => absurd (h.2.2.2.mp hc) (by decide)⟩

/-- C10: a cached credential with no `expires_at` field is treated as never
expired — for every current time, `getAccessToken` returns the cached token
and performs no refresh and no save, leaving cache and store untouched. -/
theorem getAccessToken_missing_expiry
    (now : Nat) (env : RefreshEnv) (td : FitbitTokenData) (a : String)
    (store : Store) (ha : a ≠ "") (he : td.expires_at = none) :
    getAccessToken now env ⟨some a, some td⟩ store
      = ⟨some a, ⟨some a, some td⟩, store, 0, 0, false⟩ := by
  simp [getAccessToken, expiresAtPast, he, ha]

/-- C10 witness: a credential with no expiry, queried at a very late
instant, is still served from cache with no refresh. -/
theorem getAccessToken_missing_expiry_witness :
    getAccessToken 1000000 ⟨OAuthCallResult.failure, true⟩
        ⟨some ( "AT0" ), some { tdStale with expires_at := none }⟩ ⟨none⟩
      = ⟨some ( "AT0" ),
         ⟨some ( "AT0" ), some { tdStale with expires_at := none }⟩,
         ⟨none⟩, 0, 0, false⟩ :=
  getAccessToken_missing_expiry 1000000 ⟨OAuthCallResult.failure, true⟩
    { tdStale with expires_at := none } ( "AT0" ) ⟨none⟩ (by decide) rfl

/-- C5: with an expired cached credential and a refresh call rejected by the
provider, `getAccessToken` returns null, attempts no save query, and leaves
the store exactly as it was (the stale row survives untouched). -/
theorem getAccessToken_refresh_rejected_store_unchanged
    (now e : Nat) (env : RefreshEnv) (td : FitbitTokenData) (a : String)
    (store : Store) (ha : a ≠ "") (he : td.expires_at = some e)
    (hp : e < now) (hf : env.refresh = OAuthCallResult.failure) :
    (getAccessToken now env ⟨some a, some td⟩ store).ret = none ∧
    (getAccessToken now env ⟨some a, some td⟩ store).store = store ∧
    (getAccessToken now env ⟨some a, some td⟩ store).saveCalls = 0 := by
  simp [getAccessToken, expiresAtPast, tokenObjExpired, he, ha, hp, hf]

/-- C5 witness: stale credential in a store that holds its row, refresh
rejected — null result and the stale row still in the store. -/
theorem getAccessToken_refresh_rejected_store_unchanged_witness :
    (getAccessToken 100 ⟨OAuthCallResult.failure, true⟩
        ⟨some ( "AT0" ), some tdStale⟩ (saveTokenToDB tdStale)).ret = none ∧
    (getAccessToken 100 ⟨OAuthCallResult.failure, true⟩
        ⟨some ( "AT0" ), some tdStale⟩ (saveTokenToDB tdStale)).store
      = saveTokenToDB tdStale ∧
    (getAccessToken 100 ⟨OAuthCallResult.failure, true⟩
        ⟨some ( "AT0" ), some tdStale⟩ (saveTokenToDB tdStale)).saveCalls
      = 0 :=
  getAccessToken_refresh_rejected_store_unchanged 100 50
    ⟨OAuthCallResult.failure, true⟩ tdStale ( "AT0" ) (saveTokenToDB tdStale)
    (by decide) rfl (by decide) rfl

/-- C1 counterexample: at this concrete input the cached credential is
expired and the refresh itself succeeds with `tdNew`, yet `getAccessToken`
returns null rather than the new access token — the write-through save
fails, its rethrow lands in the same catch as a failed refresh (auth.ts
lines 335-340), and the cache is cleared — refuting the claim that on
refresh success the new access token is returned unconditionally. -/
theorem refresh_success_save_failure_returns_null :
    (getAccessToken 100 ⟨OAuthCallResult.success tdNew, false⟩
        ⟨some ( "AT0" ), some tdStale⟩ ⟨none⟩).ret = none ∧
    ¬ (getAccessToken 100 ⟨OAuthCallResult.success tdNew, false⟩
        ⟨some ( "AT0" ), some tdStale⟩ ⟨none⟩).ret
      = some tdNew.access_token := by
  decide

/-- C1 (amended): for an expired cached credential, `getAccessToken` issues
exactly one refresh request and never lets an exception escape; when the
provider rejects the refresh it clears both cache fields and returns null;
when the refresh succeeds and the write-through save also succeeds, it
updates cache and store to the refreshed credential and returns the new
access token; when the refresh succeeds but the write-through save fails,
the failure is caught like a failed refresh: the cache is cleared and null
is returned. -/
theorem getAccessToken_expired_refresh_contract
    (now e : Nat) (env : RefreshEnv) (td : FitbitTokenData) (a : String)
    (store : Store) (ha : a ≠ "") (he : td.expires_at = some e)
    (hp : e < now) :
    (getAccessToken now env ⟨some a, some td⟩ store).refreshCalls = 1 ∧
    (getAccessToken now env ⟨some a, some td⟩ store).threw = false ∧
    (env.refresh = OAuthCallResult.failure →
      getAccessToken now env ⟨some a, some td⟩ store
        = ⟨none, ⟨none, none⟩, store, 1, 0, false⟩) ∧
    (∀ t, env.refresh = OAuthCallResult.success t → env.saveOk = true →
      getAccessToken now env ⟨some a, some td⟩ store
        = ⟨some t.access_token, ⟨some t.access_token, some t⟩,
           saveTokenToDB t, 1, 1, false⟩) ∧
    (∀ t, env.refresh = OAuthCallResult.success t → env.saveOk = false →
      getAccessToken now env ⟨some a, some td⟩ store
        = ⟨none, ⟨none, none⟩, store, 1, 1, false⟩) := by
  obtain ⟨r, sok⟩ := env
  cases r <;> cases sok <;>
    simp [getAccessToken, expiresAtPast, tokenObjExpired, he, ha, hp]

/-- C1 (amended) witness: stale credential, successful refresh to `tdNew`,
working store — one refresh, the refreshed token returned, cache and store
updated. -/
theorem getAccessToken_expired_refresh_contract_witness :
    (getAccessToken 100 ⟨OAuthCallResult.success tdNew, true⟩
        ⟨some ( "AT0" ), some tdStale⟩ ⟨none⟩).refreshCalls = 1 ∧
    getAccessToken 100 ⟨OAuthCallResult.success tdNew, true⟩
        ⟨some ( "AT0" ), some tdStale⟩ ⟨none⟩
      = ⟨some ( "AT1" ), ⟨some ( "AT1" ), some tdNew⟩,
         saveTokenToDB tdNew, 1, 1, false⟩ :=
  have h := getAccessToken_expired_refresh_contract 100 50
    ⟨OAuthCallResult.success tdNew, true⟩ tdStale ( "AT0" ) ⟨none⟩
    (by decide) rfl (by decide)
  ⟨h.1, h.2.2.2.1 tdNew rfl rfl⟩

/-- C4 counterexample: in the refresh path of `getAccessToken` the save of
the refreshed credential sits inside the same try block as the refresh, so
at this concrete input — expired cached credential, refresh succeeding with
`tdNew`, save failing — the catch clears both in-memory fields: afterwards
the cache does not hold the newly obtained credential. -/
theorem refresh_save_failure_clears_cache :
    (getAccessToken 100 ⟨OAuthCallResult.success tdNew, false⟩
        ⟨some ( "AT0" ), some tdStale⟩ ⟨none⟩).cache.accessToken = none ∧
    (getAccessToken 100 ⟨OAuthCallResult.success tdNew, false⟩
        ⟨some ( "AT0" ), some tdStale⟩ ⟨none⟩).cache.tokenData = none ∧
    ¬ (getAccessToken 100 ⟨OAuthCallResult.success tdNew, false⟩
        ⟨some ( "AT0" ), some tdStale⟩ ⟨none⟩).cache.tokenData
      = some tdNew := by
  refine ⟨rfl, rfl, ?_⟩
  decide

/-- C4 (amended): a failed save does not roll back the in-memory credential
in the code-exchange path — after the exchange succeeds and the save throws,
the callback answers 500 with the cache still holding the new credential —
but in the refresh path of `getAccessToken` a failed save is caught by the
same handler as a failed refresh, which clears both cache fields and
returns null. -/
theorem save_failure_rollback_amended
    (now e : Nat) (t td : FitbitTokenData) (c a : String)
    (cache : AuthCache) (store : Store) (server : Bool)
    (hc : c ≠ "") (ha : a ≠ "") (he : td.expires_at = some e)
    (hp : e < now) :
    callbackHandler ⟨OAuthCallResult.success t, false⟩ (some c) cache store
        server
      = ⟨500, ⟨some t.access_token, some t⟩, store, false⟩ ∧
    getAccessToken now ⟨OAuthCallResult.success t, false⟩
        ⟨some a, some td⟩ store
      = ⟨none, ⟨none, none⟩, store, 1, 1, false⟩ := by
  constructor
  · simp [callbackHandler, hc]
  · simp [getAccessToken, expiresAtPast, tokenObjExpired, he, ha, hp]

/-- C4 (amended) witness: code exchange at code abc123 with failing save
keeps the new credential in cache; the refresh path with failing save
clears it. -/
theorem save_failure_rollback_amended_witness :
    callbackHandler ⟨OAuthCallResult.success tdNew, false⟩ (some ( "abc123" ))
        ⟨none, none⟩ ⟨none⟩ true
      = ⟨500, ⟨some ( "AT1" ), some tdNew⟩, ⟨none⟩, false⟩ ∧
    getAccessToken 100 ⟨OAuthCallResult.success tdNew, false⟩
        ⟨some ( "AT0" ), some tdStale⟩ ⟨none⟩
      = ⟨none, ⟨none, none⟩, ⟨none⟩, 1, 1, false⟩ :=
  save_failure_rollback_amended 100 50 tdNew tdStale ( "abc123" ) ( "AT0" )
    ⟨none, none⟩ ⟨none⟩ true (by decide) (by decide) rfl (by decide)

/-- C3: the code has no single-flight guard around refresh.  In the
interleaving where two concurrent `getAccessToken` calls both run their
synchronous prefix — which performs no write to the shared cache — before
either refresh resolves, each call issues its own refresh request: the
schedule issues 2 refresh requests, not the single one the claim
requires. -/
theorem concurrent_expired_refresh_not_single_flight :
    twoInterleavedRefreshCount 100 ⟨some ( "AT0" ), some tdStale⟩ = 2 ∧
    ¬ twoInterleavedRefreshCount 100 ⟨some ( "AT0" ), some tdStale⟩ = 1 := by
  decide

/-- C6: while a session's listener is active (the server handle is
non-null), `startAuthorizationFlow` is a no-op that binds no listener and
preserves the state; and any two successive invocations bind at most one
listener in total. -/
theorem startAuthorizationFlow_single_session
    (cfg : FlowConfig) (s s0 : FlowState) (h : s.oauthServer = true) :
    startAuthorizationFlow cfg s = (s, 0) ∧
    (startAuthorizationFlow cfg s0).2
      + (startAuthorizationFlow cfg (startAuthorizationFlow cfg s0).1).2
      ≤ 1 := by
  constructor
  · simp [startAuthorizationFlow, h]
  · by_cases h0 : s0.oauthServer = true
    · simp [startAuthorizationFlow, h0]
    · by_cases h1 : cfg.clientId = ""
      · simp [startAuthorizationFlow, h0, h1]
      · by_cases h2 : cfg.clientSecret = ""
        · simp [startAuthorizationFlow, h0, h1, h2]
        · simp [startAuthorizationFlow, h0, h1, h2]

/-- C6 witness: with an active handle the call is a no-op; starting twice
from idle with a valid config binds one listener in total. -/
theorem startAuthorizationFlow_single_session_witness :
    startAuthorizationFlow ⟨ "id1", "sec1" ⟩ ⟨true⟩ = (⟨true⟩, 0) ∧
    (startAuthorizationFlow ⟨ "id1", "sec1" ⟩ ⟨false⟩).2
      + (startAuthorizationFlow ⟨ "id1", "sec1" ⟩
          (startAuthorizationFlow ⟨ "id1", "sec1" ⟩ ⟨false⟩).1).2
      ≤ 1 :=
  startAuthorizationFlow_single_session ⟨ "id1", "sec1" ⟩ ⟨true⟩ ⟨false⟩ rfl

/-- C7: a callback request with no code query parameter is answered with
HTTP 400, the listener handle is closed and reset to null — so a later
`startAuthorizationFlow` with a valid config binds a fresh listener — and
both the cached credential and the store are left unchanged. -/
theorem callback_missing_code
    (env : ExchangeEnv) (cache : AuthCache) (store : Store) (server : Bool)
    (cfg : FlowConfig) (h1 : cfg.clientId ≠ "") (h2 : cfg.clientSecret ≠ "") :
    callbackHandler env none cache store server
      = ⟨400, cache, store, false⟩ ∧
    (startAuthorizationFlow cfg
        ⟨(callbackHandler env none cache store server).oauthServer⟩).2
      = 1 := by
  constructor
  · rfl
  · simp [callbackHandler, startAuthorizationFlow, h1, h2]

/-- C7 witness: a concrete codeless callback yields 400, an unchanged empty
cache and store, and a subsequent flow start binds a listener. -/
theorem callback_missing_code_witness :
    callbackHandler ⟨OAuthCallResult.failure, true⟩ none ⟨none, none⟩ ⟨none⟩
        true
      = ⟨400, ⟨none, none⟩, ⟨none⟩, false⟩ ∧
    (startAuthorizationFlow ⟨ "id1", "sec1" ⟩
        ⟨(callbackHandler ⟨OAuthCallResult.failure, true⟩ none ⟨none, none⟩
            ⟨none⟩ true).oauthServer⟩).2
      = 1 :=
  callback_missing_code ⟨OAuthCallResult.failure, true⟩ ⟨none, none⟩ ⟨none⟩
    true ⟨ "id1", "sec1" ⟩ (by decide) (by decide)

/-- C8: `loadTokenFromDB` yields null for an empty result set, for a query
error, and for a row whose payload does not decode — its null result does
not distinguish an absent credential from a storage or decoding failure. -/
theorem loadTokenFromDB_conflates_absent_and_error :
    loadTokenFromDB (DBOutcome.ok []) = none ∧
    loadTokenFromDB DBOutcome.queryError = none ∧
    loadTokenFromDB (DBOutcome.ok [Json.str ( "garbage" )]) = none :=
  ⟨rfl, rfl, rfl⟩

/-- C9: saving any credential through the single-row upsert and loading it
back yields the same credential in every field — the serialize/deserialize
round trip is the identity, whether or not `expires_at` is present. -/
theorem save_load_roundtrip (td : FitbitTokenData) :
    loadTokenFromDB (queryStore (saveTokenToDB td)) = some td := by
  obtain ⟨a, r, ei, ea, sc, tt, uid⟩ := td
  cases ea <;> rfl
